import Mathlib

/-!
Shallow embedding of `src/battery_manager.py` (BlackRoad Battery Manager).

Modelling conventions:
* Python floats are modelled as rationals (ℚ); the thresholds and all
  comparisons in the source are exact at these values.
* A SQL timestamp column is modelled as `Option ℚ`: `some t` stands for a
  text value that `datetime.fromisoformat` parses to time `t` (measured in
  seconds), `none` for a text value whose parse raises `ValueError`.
  Rows written by the engine itself always carry `some t`.
* Python round(x, n) rounds half to even; `roundTo` below mirrors that on ℚ.
* The sqlite database is modelled as a `Store` of three tables (lists) plus
  the AUTOINCREMENT counters.  `ORDER BY reading_time DESC LIMIT 1` is
  modelled by `latestReading` (a row of maximal reading_time), and
  `ORDER BY current_pct ASC` by an insertion sort on current_pct.
* Alert message f-strings are modelled at template level by `AlertMsg`;
  the payload is the pct as formatted by :.1f, i.e. rounded to 1 decimal.
-/

namespace BatteryManager

/-- Timestamp column: parse result of the stored text (none = unparseable). -/
abbrev Timestamp := Option ℚ

/-- Rounding half to even on integers scaled by a power of ten, as Python
round() does.  `Int.fdiv num den` is the floor of the rational. -/
def roundHalfEven (q : ℚ) : ℤ :=
  let f : ℤ := Int.fdiv q.num (q.den : ℤ)
  let r : ℚ := q - (f : ℚ)
  if r < 1/2 then f
  else if 1/2 < r then f + 1
  else if f % 2 = 0 then f else f + 1

/-- Python round(q, ndigits). -/
def roundTo (ndigits : ℕ) (q : ℚ) : ℚ :=
  (roundHalfEven (q * (10 : ℚ) ^ ndigits) : ℚ) / (10 : ℚ) ^ ndigits

/-- iot_devices row (source dataclass IoTDevice). -/
structure IoTDevice where
  id : Nat
  name : String
  device_type : String
  location : String
  battery_type : String
  battery_capacity_mah : Int
  current_pct : ℚ
  last_seen : Timestamp
  status : String
  firmware_version : String
  notes : String
  created_at : Timestamp
deriving Repr, DecidableEq

/-- IoTDevice.health_label from the source. -/
def IoTDevice.health_label (d : IoTDevice) : String :=
  if 60 ≤ d.current_pct then "healthy"
  else if 30 ≤ d.current_pct then "warning"
  else if 15 ≤ d.current_pct then "low"
  else "critical"

/-- Alert message templates of the source f-strings; the argument is the
formatted pct (:.1f shows the value rounded to one decimal). -/
inductive AlertMsg where
  | criticalAt (pct : ℚ)
  | lowAt (pct : ℚ)
deriving Repr, DecidableEq

/-- battery_readings row (source dataclass BatteryReading). -/
structure BatteryReading where
  id : Nat
  device_id : Nat
  reading_time : Timestamp
  battery_pct : ℚ
  voltage_mv : Option ℚ
  temperature_c : Option ℚ
  signal_rssi : Option Int
  drain_rate : Option ℚ
deriving Repr, DecidableEq

/-- battery_alerts row (source dataclass BatteryAlert). -/
structure BatteryAlert where
  id : Nat
  device_id : Nat
  alert_type : String
  threshold : ℚ
  current_value : ℚ
  message : AlertMsg
  resolved : Bool
  created_at : Timestamp
deriving Repr, DecidableEq

/-- The sqlite database: three tables plus the AUTOINCREMENT counters. -/
structure Store where
  iot_devices : List IoTDevice
  battery_readings : List BatteryReading
  battery_alerts : List BatteryAlert
  next_device_id : Nat
  next_reading_id : Nat
  next_alert_id : Nat
deriving Repr, DecidableEq

/-- LOW_PCT = 30.0 from the source. -/
def LOW_PCT : ℚ := 30

/-- CRITICAL_PCT = 15.0 from the source. -/
def CRITICAL_PCT : ℚ := 15

/-- Text order on stored timestamps, restricted to what the model can see:
engine-written rows are parseable ISO strings, where text order and time
order agree; an unparseable text is placed below all parseable ones. -/
def tsLt (a b : Timestamp) : Bool :=
  match a, b with
  | none, some _ => true
  | none, none => false
  | some _, none => false
  | some x, some y => decide (x < y)

/-- SELECT ... WHERE device_id = ? ORDER BY reading_time DESC LIMIT 1:
a row of maximal reading_time among the readings of the device. -/
def latestReading (s : Store) (device_id : Nat) : Option BatteryReading :=
  (s.battery_readings.filter (fun r => r.device_id == device_id)).foldl
    (fun acc r =>
      match acc with
      | none => some r
      | some b => if tsLt b.reading_time r.reading_time then some r else some b)
    none

/-- SELECT * FROM iot_devices WHERE id = ? (source _get_device). -/
def _get_device (s : Store) (device_id : Nat) : Option IoTDevice :=
  s.iot_devices.find? (fun d => d.id == device_id)

/-- Source add_device: INSERT with current_pct = 100.0 and the schema
defaults status = online and created_at = CURRENT_TIMESTAMP; the UNIQUE
constraint on name makes a duplicate insert fail (modelled as none). -/
def add_device (s : Store) (ts : ℚ) (name device_type location battery_type : String)
    (capacity_mah : Int) (firmware notes : String) : Option (Store × IoTDevice) :=
  if s.iot_devices.any (fun d => d.name == name) then none
  else
    let d : IoTDevice :=
      { id := s.next_device_id, name := name, device_type := device_type,
        location := location, battery_type := battery_type,
        battery_capacity_mah := capacity_mah, current_pct := 100,
        last_seen := some ts, status := "online", firmware_version := firmware,
        notes := notes, created_at := some ts }
    let s2 : Store :=
      { s with iot_devices := s.iot_devices ++ [d],
               next_device_id := s.next_device_id + 1 }
    some (s2, d)

/-- Drain-rate computation of record_reading (source lines 163-177): null
without a prior reading; otherwise parse the prior timestamp (ValueError is
caught, leaving null), take elapsed hours, and when positive round the rate
to 4 decimals.  The fresh timestamp ts always parses (the code just built
it), so only the stored prior text can fail to parse. -/
def computeDrain (prev : Option BatteryReading) (ts : ℚ) (battery_pct : ℚ) : Option ℚ :=
  match prev with
  | none => none
  | some p =>
    match p.reading_time with
    | none => none
    | some pt =>
      let elapsed_h : ℚ := (ts - pt) / 3600
      if 0 < elapsed_h then some (roundTo 4 ((p.battery_pct - battery_pct) / elapsed_h))
      else none

/-- Status derivation of record_reading (source lines 178-179). -/
def newStatus (battery_pct : ℚ) : String :=
  if battery_pct ≤ CRITICAL_PCT then "critical"
  else if battery_pct ≤ LOW_PCT then "warning"
  else "online"

/-- Source _fire_alert: INSERT INTO battery_alerts (resolved defaults 0). -/
def _fire_alert (s : Store) (ts : ℚ) (device_id : Nat) (atype : String)
    (threshold current : ℚ) (message : AlertMsg) : Store :=
  { s with
    battery_alerts := s.battery_alerts ++
      [{ id := s.next_alert_id, device_id := device_id, alert_type := atype,
         threshold := threshold, current_value := current, message := message,
         resolved := false, created_at := some ts }],
    next_alert_id := s.next_alert_id + 1 }

/-- Source _check_alerts. -/
def _check_alerts (s : Store) (ts : ℚ) (device_id : Nat) (pct : ℚ) : Store :=
  if pct ≤ CRITICAL_PCT then
    _fire_alert s ts device_id "critical" CRITICAL_PCT pct (.criticalAt (roundTo 1 pct))
  else if pct ≤ LOW_PCT then
    _fire_alert s ts device_id "low_battery" LOW_PCT pct (.lowAt (roundTo 1 pct))
  else s

/-- Source record_reading: fetch the latest prior reading, compute
drain_rate and the new status, INSERT the reading and UPDATE the device row
in one transaction, then run _check_alerts; returns the new reading.  The
source never checks that device_id exists: the UPDATE simply matches no row
then.  ts is the parsed value of datetime.now().isoformat(). -/
def record_reading (s : Store) (ts : ℚ) (device_id : Nat) (battery_pct : ℚ)
    (voltage_mv temperature_c : Option ℚ) (signal_rssi : Option Int) :
    Store × BatteryReading :=
  let prev := latestReading s device_id
  let drain_rate := computeDrain prev ts battery_pct
  let status := newStatus battery_pct
  let r : BatteryReading :=
    { id := s.next_reading_id, device_id := device_id, reading_time := some ts,
      battery_pct := battery_pct, voltage_mv := voltage_mv,
      temperature_c := temperature_c, signal_rssi := signal_rssi,
      drain_rate := drain_rate }
  let s1 : Store :=
    { s with
      battery_readings := s.battery_readings ++ [r],
      iot_devices := s.iot_devices.map (fun d =>
        if d.id == device_id then
          { d with current_pct := battery_pct, last_seen := some ts, status := status }
        else d),
      next_reading_id := s.next_reading_id + 1 }
  (_check_alerts s1 ts device_id battery_pct, r)

/-- Source list_devices: optional status filter, ORDER BY current_pct ASC. -/
def list_devices (s : Store) (status : Option String) : List IoTDevice :=
  let rows :=
    match status with
    | none => s.iot_devices
    | some st => s.iot_devices.filter (fun d => d.status == st)
  rows.insertionSort (fun a b => a.current_pct ≤ b.current_pct)

/-- Result dictionary of fleet_status. -/
structure FleetStatus where
  total_devices : Nat
  avg_battery_pct : ℚ
  healthy : Nat
  warning : Nat
  low : Nat
  critical : Nat
  active_alerts : Nat
deriving Repr, DecidableEq

/-- Source fleet_status: aggregate over list_devices() and the unresolved
alert count. -/
def fleet_status (s : Store) : FleetStatus :=
  let devices := list_devices s none
  let total := devices.length
  let alerts := (s.battery_alerts.filter (fun a => a.resolved == false)).length
  let avg : ℚ :=
    if total = 0 then 0
    else roundTo 1 ((devices.map (fun d => d.current_pct)).sum / (total : ℚ))
  { total_devices := total,
    avg_battery_pct := avg,
    healthy := (devices.filter (fun d => decide (60 ≤ d.current_pct))).length,
    warning := (devices.filter (fun d => decide (30 ≤ d.current_pct ∧ d.current_pct < 60))).length,
    low := (devices.filter (fun d => decide (15 ≤ d.current_pct ∧ d.current_pct < 30))).length,
    critical := (devices.filter (fun d => decide (d.current_pct < 15))).length,
    active_alerts := alerts }

/-- Store with the stored status column of every device rewritten by g,
leaving every other column unchanged; used to state that the fleet
aggregation does not read the stored status. -/
def statusRemap (g : IoTDevice → String) (s : Store) : Store :=
  { s with iot_devices := s.iot_devices.map (fun d => { d with status := g d }) }

/-- Fresh database (counters at 1, as sqlite AUTOINCREMENT starts at 1). -/
def emptyStore : Store := ⟨[], [], [], 1, 1, 1⟩

/-- Sample registered device. -/
def exDevice : IoTDevice :=
  ⟨1, "sensor-1", "sensor", "lab", "LiPo", 2000, 100, some 0, "online", "1.0.0", "", some 0⟩

/-- Database holding exactly the sample device. -/
def oneDeviceStore : Store := ⟨[exDevice], [], [], 2, 1, 1⟩

/-- Pre-existing unresolved low_battery alert for the sample device. -/
def exAlert : BatteryAlert := ⟨1, 1, "low_battery", 30, 20, .lowAt 20, false, some 0⟩

/-- Database where the sample device already has an unresolved alert. -/
def alertStore : Store := ⟨[exDevice], [], [exAlert], 2, 1, 2⟩

/-- Device row produced by registering "a" on the fresh database. -/
def exAddedDev : IoTDevice :=
  ⟨1, "a", "sensor", "lab", "LiPo", 2000, 100, some 0, "online", "1.0.0", "", some 0⟩

/-- Database after registering "a" on the fresh database. -/
def exAddedStore : Store := ⟨[exAddedDev], [], [], 2, 1, 1⟩

/-! Helper lemmas about the alert pass and the device table. -/

lemma check_alerts_iot_devices (s : Store) (ts : ℚ) (did : Nat) (pct : ℚ) :
    (_check_alerts s ts did pct).iot_devices = s.iot_devices := by
  unfold _check_alerts _fire_alert
  split_ifs <;> rfl

lemma check_alerts_battery_readings (s : Store) (ts : ℚ) (did : Nat) (pct : ℚ) :
    (_check_alerts s ts did pct).battery_readings = s.battery_readings := by
  unfold _check_alerts _fire_alert
  split_ifs <;> rfl

lemma check_alerts_battery_alerts (s : Store) (ts : ℚ) (did : Nat) (pct : ℚ) :
    (_check_alerts s ts did pct).battery_alerts =
      if pct ≤ CRITICAL_PCT then
        s.battery_alerts ++
          [⟨s.next_alert_id, did, "critical", CRITICAL_PCT, pct,
            .criticalAt (roundTo 1 pct), false, some ts⟩]
      else if pct ≤ LOW_PCT then
        s.battery_alerts ++
          [⟨s.next_alert_id, did, "low_battery", LOW_PCT, pct,
            .lowAt (roundTo 1 pct), false, some ts⟩]
      else s.battery_alerts := by
  unfold _check_alerts _fire_alert
  split_ifs <;> rfl

lemma find?_map_if (l : List IoTDevice) (did : Nat) (f : IoTDevice → IoTDevice)
    (hf : ∀ d, (f d).id = d.id) :
    (l.map (fun d => if d.id == did then f d else d)).find? (fun d => d.id == did)
      = (l.find? (fun d => d.id == did)).map f := by
  induction l with
  | nil => rfl
  | cons a l ih =>
    by_cases h : a.id = did
    · simp only [List.map_cons, List.find?_cons, h, beq_self_eq_true, if_pos, hf,
        Option.map_some]
      rfl
    · have hb : (a.id == did) = false := beq_eq_false_iff_ne.mpr h
      simp only [List.map_cons, List.find?_cons, hb, if_neg, Bool.false_eq_true,
        not_false_iff, ih]

lemma record_reading_fst (s : Store) (ts : ℚ) (did : Nat) (pct : ℚ)
    (v t : Option ℚ) (rssi : Option Int) :
    (record_reading s ts did pct v t rssi).1 =
      _check_alerts
        { s with
          battery_readings :=
            s.battery_readings ++ [(record_reading s ts did pct v t rssi).2],
          iot_devices := s.iot_devices.map (fun d =>
            if d.id == did then
              { d with current_pct := pct, last_seen := some ts,
                       status := newStatus pct }
            else d),
          next_reading_id := s.next_reading_id + 1 }
        ts did pct := rfl

/-- C3: the drain_rate of the reading produced by record_reading is null
when no prior reading exists for the device; when a prior reading exists
and its timestamp parses and the elapsed hours are strictly positive, it is
(prior_pct - new battery_pct) / elapsed_hours rounded to 4 decimals; when
the elapsed hours are non-positive or the prior timestamp does not parse it
is null (and record_reading is total, so no error is raised). -/
theorem C3_drain_rate (s : Store) (ts : ℚ) (device_id : Nat) (battery_pct : ℚ)
    (v t : Option ℚ) (rssi : Option Int) :
    (record_reading s ts device_id battery_pct v t rssi).2.drain_rate =
      match latestReading s device_id with
      | none => none
      | some p =>
        match p.reading_time with
        | none => none
        | some pt =>
          if 0 < (ts - pt) / 3600 then
            some (roundTo 4 ((p.battery_pct - battery_pct) / ((ts - pt) / 3600)))
          else none := by
  show computeDrain (latestReading s device_id) ts battery_pct = _
  unfold computeDrain
  rcases latestReading s device_id with _ | p
  · rfl
  · rcases p.reading_time with _ | pt <;> rfl

/-- C4: after ingestion the alert pass appends exactly one critical alert
(alert_type critical, threshold 15.0, current_value battery_pct, message
CRITICAL: battery at pct%! at template level) when battery_pct ≤ 15.0,
exactly one low_battery alert (threshold 30.0, message Battery low: pct%)
when 15.0 < battery_pct ≤ 30.0, and no alert when battery_pct > 30.0. -/
theorem C4_alert_policy (s : Store) (ts : ℚ) (device_id : Nat) (battery_pct : ℚ)
    (v t : Option ℚ) (rssi : Option Int) :
    (record_reading s ts device_id battery_pct v t rssi).1.battery_alerts =
      if battery_pct ≤ 15 then
        s.battery_alerts ++
          [⟨s.next_alert_id, device_id, "critical", 15, battery_pct,
            .criticalAt (roundTo 1 battery_pct), false, some ts⟩]
      else if battery_pct ≤ 30 then
        s.battery_alerts ++
          [⟨s.next_alert_id, device_id, "low_battery", 30, battery_pct,
            .lowAt (roundTo 1 battery_pct), false, some ts⟩]
      else s.battery_alerts := by
  rw [record_reading_fst, check_alerts_battery_alerts]
  rfl

/-- C5: the Reading insert and the Device update of a single record_reading
call form one atomic state transition: the unique post-state holds both the
appended Reading row and the device row updated to the new current_pct,
last_seen and status (the embedding is a single transition, mirroring the
single transaction of source lines 164-192; the alert pass touches neither
table). -/
theorem C5_atomic_ingest (s : Store) (ts : ℚ) (device_id : Nat) (battery_pct : ℚ)
    (v t : Option ℚ) (rssi : Option Int) :
    (record_reading s ts device_id battery_pct v t rssi).1.battery_readings =
      s.battery_readings ++ [(record_reading s ts device_id battery_pct v t rssi).2] ∧
    (record_reading s ts device_id battery_pct v t rssi).1.iot_devices =
      s.iot_devices.map (fun d =>
        if d.id == device_id then
          { d with current_pct := battery_pct, last_seen := some ts,
                   status := newStatus battery_pct }
        else d) := by
  constructor
  · rw [record_reading_fst, check_alerts_battery_readings]
  · rw [record_reading_fst, check_alerts_iot_devices]

/-- C6: the alert policy never deduplicates: whatever alerts the store
already holds (in particular an unresolved alert of the same type for the
same device), a qualifying reading (battery_pct ≤ 30.0) always appends one
more alert row. -/
theorem C6_no_dedup (s : Store) (ts : ℚ) (device_id : Nat) (battery_pct : ℚ)
    (v t : Option ℚ) (rssi : Option Int) (h : battery_pct ≤ 30) :
    (record_reading s ts device_id battery_pct v t rssi).1.battery_alerts.length =
      s.battery_alerts.length + 1 := by
  rw [record_reading_fst, check_alerts_battery_alerts]
  simp only [CRITICAL_PCT, LOW_PCT]
  by_cases hc : battery_pct ≤ 15
  · rw [if_pos hc]
    simp
  · rw [if_neg hc, if_pos h]
    simp

lemma newStatus_spec (pct : ℚ) :
    (newStatus pct = "critical" ↔ pct ≤ 15) ∧
    (newStatus pct = "warning" ↔ 15 < pct ∧ pct ≤ 30) ∧
    (newStatus pct = "online" ↔ 30 < pct) ∧
    newStatus pct ≠ "offline" := by
  unfold newStatus CRITICAL_PCT LOW_PCT
  split_ifs with h1 h2
  · exact ⟨⟨fun _ => h1, fun _ => rfl⟩,
      ⟨fun hs => absurd hs (by decide), fun hc => absurd h1 (not_le.mpr hc.1)⟩,
      ⟨fun hs => absurd hs (by decide), fun hc => by linarith⟩,
      by decide⟩
  · push_neg at h1
    exact ⟨⟨fun hs => absurd hs (by decide), fun hc => by linarith⟩,
      ⟨fun _ => ⟨h1, h2⟩, fun _ => rfl⟩,
      ⟨fun hs => absurd hs (by decide), fun hc => by linarith⟩,
      by decide⟩
  · push_neg at h1 h2
    exact ⟨⟨fun hs => absurd hs (by decide), fun hc => by linarith⟩,
      ⟨fun hs => absurd hs (by decide), fun hc => by linarith⟩,
      ⟨fun _ => h2, fun _ => rfl⟩,
      by decide⟩

/-- C2: after record_reading on an existing device, the stored device row
has current_pct equal to the ingested battery_pct, last_seen equal to the
timestamp of the reading, and status critical iff battery_pct ≤ 15.0,
warning iff 15.0 < battery_pct ≤ 30.0, online otherwise; ingestion never
assigns offline. -/
theorem C2_device_state_after_ingest (s : Store) (ts : ℚ) (device_id : Nat)
    (battery_pct : ℚ) (v t : Option ℚ) (rssi : Option Int) (d₀ : IoTDevice)
    (h : _get_device s device_id = some d₀) :
    ∃ d : IoTDevice,
      _get_device (record_reading s ts device_id battery_pct v t rssi).1 device_id
        = some d ∧
      d.current_pct = battery_pct ∧
      d.last_seen = some ts ∧
      (d.status = "critical" ↔ battery_pct ≤ 15) ∧
      (d.status = "warning" ↔ 15 < battery_pct ∧ battery_pct ≤ 30) ∧
      (d.status = "online" ↔ 30 < battery_pct) ∧
      d.status ≠ "offline" := by
  obtain ⟨hc, hw, ho, hn⟩ := newStatus_spec battery_pct
  refine ⟨{ d₀ with current_pct := battery_pct, last_seen := some ts,
                    status := newStatus battery_pct }, ?_, rfl, rfl, hc, hw, ho, hn⟩
  unfold _get_device at h ⊢
  rw [record_reading_fst, check_alerts_iot_devices]
  have hmap := find?_map_if s.iot_devices device_id
    (fun d => { d with current_pct := battery_pct, last_seen := some ts,
                       status := newStatus battery_pct })
    (fun d => rfl)
  exact hmap.trans (by rw [h]; rfl)

/-- C2 witness: ingest 50 percent for the registered sample device. -/
theorem C2_witness :
    ∃ d : IoTDevice,
      _get_device (record_reading oneDeviceStore 0 1 50 none none none).1 1 = some d ∧
      d.current_pct = 50 ∧
      d.last_seen = some 0 ∧
      (d.status = "critical" ↔ (50 : ℚ) ≤ 15) ∧
      (d.status = "warning" ↔ (15 : ℚ) < 50 ∧ (50 : ℚ) ≤ 30) ∧
      (d.status = "online" ↔ (30 : ℚ) < 50) ∧
      d.status ≠ "offline" :=
  C2_device_state_after_ingest oneDeviceStore 0 1 50 none none none exDevice (by decide)

/-- C1, counterexample: on the fresh database device id 7 does not exist,
yet record_reading does not fail and does insert a Reading row (and, the
pct being 20 ≤ 30, an Alert row), so the store does not stay unchanged. -/
theorem C1_counterexample :
    _get_device emptyStore 7 = none ∧
    (record_reading emptyStore 0 7 20 none none none).1.battery_readings.length = 1 ∧
    (record_reading emptyStore 0 7 20 none none none).1.battery_alerts.length = 1 := by
  decide

/-- C1, amended: for a device id that does not reference an existing
Device, record_reading does not fail: it inserts the new Reading row with
that device id, mutates no Device row (the UPDATE matches nothing), and
additionally inserts one Alert row exactly when battery_pct ≤ 30.0. -/
theorem C1_missing_device_ingest (s : Store) (ts : ℚ) (device_id : Nat)
    (battery_pct : ℚ) (v t : Option ℚ) (rssi : Option Int)
    (h : _get_device s device_id = none) :
    (record_reading s ts device_id battery_pct v t rssi).1.battery_readings =
      s.battery_readings ++ [(record_reading s ts device_id battery_pct v t rssi).2] ∧
    (record_reading s ts device_id battery_pct v t rssi).1.iot_devices = s.iot_devices ∧
    (record_reading s ts device_id battery_pct v t rssi).1.battery_alerts.length =
      s.battery_alerts.length + (if battery_pct ≤ 30 then 1 else 0) := by
  refine ⟨?_, ?_, ?_⟩
  · rw [record_reading_fst, check_alerts_battery_readings]
  · rw [record_reading_fst, check_alerts_iot_devices]
    unfold _get_device at h
    rw [List.find?_eq_none] at h
    have hid : ∀ d ∈ s.iot_devices,
        (if d.id == device_id then
          { d with current_pct := battery_pct, last_seen := some ts,
                   status := newStatus battery_pct }
         else d) = d := by
      intro d hd
      rw [if_neg]
      simpa using h d hd
    have hmap : s.iot_devices.map (fun d =>
        if d.id == device_id then
          { d with current_pct := battery_pct, last_seen := some ts,
                   status := newStatus battery_pct }
        else d) = s.iot_devices := by
      rw [List.map_congr_left hid]
      exact List.map_id s.iot_devices
    exact hmap
  · rw [record_reading_fst, check_alerts_battery_alerts]
    simp only [CRITICAL_PCT, LOW_PCT]
    by_cases hc : battery_pct ≤ 15
    · rw [if_pos hc, if_pos (le_trans hc (by norm_num))]
      simp
    · by_cases hl : battery_pct ≤ 30
      · rw [if_neg hc, if_pos hl, if_pos hl]
        simp
      · rw [if_neg hc, if_neg hl, if_neg hl]
        simp

/-- C1 witness for the amended statement: ingesting 50 percent for the
missing device id 7 inserts the reading, leaves the (empty) device table
untouched, and raises no alert. -/
theorem C1_missing_device_witness :
    (record_reading emptyStore 0 7 50 none none none).1.battery_readings =
      emptyStore.battery_readings ++ [(record_reading emptyStore 0 7 50 none none none).2] ∧
    (record_reading emptyStore 0 7 50 none none none).1.iot_devices =
      emptyStore.iot_devices ∧
    (record_reading emptyStore 0 7 50 none none none).1.battery_alerts.length =
      emptyStore.battery_alerts.length + (if (50 : ℚ) ≤ 30 then 1 else 0) :=
  C1_missing_device_ingest emptyStore 0 7 50 none none none (by decide)

/-- C6 witness: the sample device already has an unresolved low_battery
alert, and a further qualifying reading still appends a new alert row. -/
theorem C6_witness :
    (20 : ℚ) ≤ 30 ∧
    (record_reading alertStore 0 1 20 none none none).1.battery_alerts.length =
      alertStore.battery_alerts.length + 1 :=
  ⟨by decide, C6_no_dedup alertStore 0 1 20 none none none (by decide)⟩

lemma list_devices_none_perm (s : Store) :
    List.Perm (list_devices s none) s.iot_devices := by
  unfold list_devices
  exact List.perm_insertionSort _ _

lemma fleet_healthy_countP (s : Store) :
    (fleet_status s).healthy
      = s.iot_devices.countP (fun d => decide (60 ≤ d.current_pct)) :=
  calc (fleet_status s).healthy
      = ((list_devices s none).filter (fun d => decide (60 ≤ d.current_pct))).length := rfl
    _ = (list_devices s none).countP (fun d => decide (60 ≤ d.current_pct)) :=
        (List.countP_eq_length_filter _ _).symm
    _ = s.iot_devices.countP (fun d => decide (60 ≤ d.current_pct)) :=
        (list_devices_none_perm s).countP_eq _

lemma fleet_warning_countP (s : Store) :
    (fleet_status s).warning
      = s.iot_devices.countP (fun d => decide (30 ≤ d.current_pct ∧ d.current_pct < 60)) :=
  calc (fleet_status s).warning
      = ((list_devices s none).filter
          (fun d => decide (30 ≤ d.current_pct ∧ d.current_pct < 60))).length := rfl
    _ = (list_devices s none).countP
          (fun d => decide (30 ≤ d.current_pct ∧ d.current_pct < 60)) :=
        (List.countP_eq_length_filter _ _).symm
    _ = s.iot_devices.countP (fun d => decide (30 ≤ d.current_pct ∧ d.current_pct < 60)) :=
        (list_devices_none_perm s).countP_eq _

lemma fleet_low_countP (s : Store) :
    (fleet_status s).low
      = s.iot_devices.countP (fun d => decide (15 ≤ d.current_pct ∧ d.current_pct < 30)) :=
  calc (fleet_status s).low
      = ((list_devices s none).filter
          (fun d => decide (15 ≤ d.current_pct ∧ d.current_pct < 30))).length := rfl
    _ = (list_devices s none).countP
          (fun d => decide (15 ≤ d.current_pct ∧ d.current_pct < 30)) :=
        (List.countP_eq_length_filter _ _).symm
    _ = s.iot_devices.countP (fun d => decide (15 ≤ d.current_pct ∧ d.current_pct < 30)) :=
        (list_devices_none_perm s).countP_eq _

lemma fleet_critical_countP (s : Store) :
    (fleet_status s).critical
      = s.iot_devices.countP (fun d => decide (d.current_pct < 15)) :=
  calc (fleet_status s).critical
      = ((list_devices s none).filter (fun d => decide (d.current_pct < 15))).length := rfl
    _ = (list_devices s none).countP (fun d => decide (d.current_pct < 15)) :=
        (List.countP_eq_length_filter _ _).symm
    _ = s.iot_devices.countP (fun d => decide (d.current_pct < 15)) :=
        (list_devices_none_perm s).countP_eq _

lemma fleet_total_length (s : Store) :
    (fleet_status s).total_devices = s.iot_devices.length :=
  (list_devices_none_perm s).length_eq

lemma countP_buckets (l : List IoTDevice) :
    l.countP (fun d => decide (60 ≤ d.current_pct)) +
    l.countP (fun d => decide (30 ≤ d.current_pct ∧ d.current_pct < 60)) +
    l.countP (fun d => decide (15 ≤ d.current_pct ∧ d.current_pct < 30)) +
    l.countP (fun d => decide (d.current_pct < 15)) = l.length := by
  induction l with
  | nil => rfl
  | cons a l ih =>
    simp only [List.countP_cons, List.length_cons]
    rcases le_or_lt 60 a.current_pct with h1 | h1
    · have b2 : ¬(30 ≤ a.current_pct ∧ a.current_pct < 60) := fun hx => by linarith [hx.2]
      have b3 : ¬(15 ≤ a.current_pct ∧ a.current_pct < 30) := fun hx => by linarith [hx.2]
      have b4 : ¬(a.current_pct < 15) := by linarith
      rw [if_pos (decide_eq_true h1),
        if_neg (fun hx => b2 (of_decide_eq_true hx)),
        if_neg (fun hx => b3 (of_decide_eq_true hx)),
        if_neg (fun hx => b4 (of_decide_eq_true hx))]
      omega
    · rcases le_or_lt 30 a.current_pct with h2 | h2
      · have b1 : ¬(60 ≤ a.current_pct) := not_le.mpr h1
        have b2 : 30 ≤ a.current_pct ∧ a.current_pct < 60 := ⟨h2, h1⟩
        have b3 : ¬(15 ≤ a.current_pct ∧ a.current_pct < 30) := fun hx => by linarith [hx.2]
        have b4 : ¬(a.current_pct < 15) := by linarith
        rw [if_neg (fun hx => b1 (of_decide_eq_true hx)),
          if_pos (decide_eq_true b2),
          if_neg (fun hx => b3 (of_decide_eq_true hx)),
          if_neg (fun hx => b4 (of_decide_eq_true hx))]
        omega
      · rcases le_or_lt 15 a.current_pct with h3 | h3
        · have b1 : ¬(60 ≤ a.current_pct) := not_le.mpr h1
          have b2 : ¬(30 ≤ a.current_pct ∧ a.current_pct < 60) := fun hx => by linarith [hx.1]
          have b3 : 15 ≤ a.current_pct ∧ a.current_pct < 30 := ⟨h3, h2⟩
          have b4 : ¬(a.current_pct < 15) := by linarith
          rw [if_neg (fun hx => b1 (of_decide_eq_true hx)),
            if_neg (fun hx => b2 (of_decide_eq_true hx)),
            if_pos (decide_eq_true b3),
            if_neg (fun hx => b4 (of_decide_eq_true hx))]
          omega
        · have b1 : ¬(60 ≤ a.current_pct) := not_le.mpr h1
          have b2 : ¬(30 ≤ a.current_pct ∧ a.current_pct < 60) := fun hx => by linarith [hx.1]
          have b3 : ¬(15 ≤ a.current_pct ∧ a.current_pct < 30) := fun hx => by linarith [hx.1]
          rw [if_neg (fun hx => b1 (of_decide_eq_true hx)),
            if_neg (fun hx => b2 (of_decide_eq_true hx)),
            if_neg (fun hx => b3 (of_decide_eq_true hx)),
            if_pos (decide_eq_true h3)]
          omega

/-- C7: fleet_status computes the four health buckets from current_pct —
healthy ≥ 60, warning [30, 60), low [15, 30), critical < 15 — so that they
partition the fleet (their sum is total_devices), and the buckets do not
change when the stored status column of every device is rewritten
arbitrarily (they are not computed from the status field). -/
theorem C7_fleet_buckets (s : Store) (g : IoTDevice → String) :
    (fleet_status s).healthy
      = s.iot_devices.countP (fun d => decide (60 ≤ d.current_pct)) ∧
    (fleet_status s).warning
      = s.iot_devices.countP (fun d => decide (30 ≤ d.current_pct ∧ d.current_pct < 60)) ∧
    (fleet_status s).low
      = s.iot_devices.countP (fun d => decide (15 ≤ d.current_pct ∧ d.current_pct < 30)) ∧
    (fleet_status s).critical
      = s.iot_devices.countP (fun d => decide (d.current_pct < 15)) ∧
    (fleet_status s).healthy + (fleet_status s).warning + (fleet_status s).low +
      (fleet_status s).critical = (fleet_status s).total_devices ∧
    (fleet_status (statusRemap g s)).healthy = (fleet_status s).healthy ∧
    (fleet_status (statusRemap g s)).warning = (fleet_status s).warning ∧
    (fleet_status (statusRemap g s)).low = (fleet_status s).low ∧
    (fleet_status (statusRemap g s)).critical = (fleet_status s).critical := by
  have hremap : ∀ p : IoTDevice → Bool,
      (statusRemap g s).iot_devices.countP p = s.iot_devices.countP (fun d =>
        p { d with status := g d }) := fun p => List.countP_map p _ s.iot_devices
  refine ⟨fleet_healthy_countP s, fleet_warning_countP s, fleet_low_countP s,
    fleet_critical_countP s, ?_, ?_, ?_, ?_, ?_⟩
  · rw [fleet_healthy_countP, fleet_warning_countP, fleet_low_countP,
      fleet_critical_countP, fleet_total_length]
    exact countP_buckets s.iot_devices
  · rw [fleet_healthy_countP, fleet_healthy_countP, hremap]
  · rw [fleet_warning_countP, fleet_warning_countP, hremap]
  · rw [fleet_low_countP, fleet_low_countP, hremap]
  · rw [fleet_critical_countP, fleet_critical_countP, hremap]

/-- C8: avg_battery_pct is the mean of current_pct over all devices rounded
to 1 decimal when the fleet is non-empty, and exactly 0.0 for an empty
fleet; fleet_status is total, so no division-by-zero error can be
raised. -/
theorem C8_avg_battery (s : Store) :
    (fleet_status s).avg_battery_pct =
      if s.iot_devices.length = 0 then 0
      else roundTo 1
        ((s.iot_devices.map (fun d => d.current_pct)).sum / (s.iot_devices.length : ℚ)) := by
  have hperm := list_devices_none_perm s
  have hlen : (list_devices s none).length = s.iot_devices.length := hperm.length_eq
  have hsum : ((list_devices s none).map (fun d => d.current_pct)).sum
      = (s.iot_devices.map (fun d => d.current_pct)).sum := (hperm.map _).sum_eq
  show (if (list_devices s none).length = 0 then (0 : ℚ)
        else roundTo 1
          (((list_devices s none).map (fun d => d.current_pct)).sum /
            ((list_devices s none).length : ℚ))) = _
  rw [hlen, hsum]

/-- C9: at the 15.0 boundary the status label and the fleet bucket
disagree: ingesting exactly 15.0 stores status critical (15 ≤ 15), yet
fleet_status counts the device in the low bucket (15 ≤ 15 < 30) and not in
the critical bucket (15 < 15 fails). -/
theorem C9_boundary_disagreement :
    Option.map (fun d => d.status)
        (_get_device (record_reading oneDeviceStore 0 1 15 none none none).1 1)
      = some "critical" ∧
    (fleet_status (record_reading oneDeviceStore 0 1 15 none none none).1).low = 1 ∧
    (fleet_status (record_reading oneDeviceStore 0 1 15 none none none).1).critical = 0 := by
  decide

/-- C10: every device created by add_device starts with current_pct exactly
100.0 and status online (the INSERT writes current_pct 100.0 and omits
status, whose schema default is online), whatever the registration
arguments were. -/
theorem C10_add_device_defaults (s : Store) (ts : ℚ)
    (name device_type location battery_type : String) (capacity_mah : Int)
    (firmware notes : String) (s₂ : Store) (d : IoTDevice)
    (h : add_device s ts name device_type location battery_type capacity_mah
          firmware notes = some (s₂, d)) :
    d.current_pct = 100 ∧ d.status = "online" ∧
    s₂.iot_devices = s.iot_devices ++ [d] := by
  unfold add_device at h
  split_ifs at h with hdup
  simp only [Option.some.injEq, Prod.mk.injEq] at h
  obtain ⟨hs, hd⟩ := h
  subst hs
  subst hd
  exact ⟨rfl, rfl, rfl⟩

/-- C10 witness: registering device "a" on the fresh database. -/
theorem C10_witness :
    exAddedDev.current_pct = 100 ∧ exAddedDev.status = "online" ∧
    exAddedStore.iot_devices = emptyStore.iot_devices ++ [exAddedDev] :=
  C10_add_device_defaults emptyStore 0 "a" "sensor" "lab" "LiPo" 2000 "1.0.0" ""
    exAddedStore exAddedDev (by decide)

end BatteryManager
